import Mathlib

/-!
Verification of the shopping-list application's backend and frontend logic.

This file gives a shallow embedding, in Lean 4, of the pieces of the
repository that the verified properties talk about:

* `backend/validators/item.js` — `validateItemAddition`, `validateItemUpdate`;
* `backend/services/statisticsService.js` — `parseMonth`,
  `computeCategoriesBreakdown`, `groupItemsByList`;
* `backend/controllers/statistic.js` — `getMonthlyStats`, `getStatsByList`;
* `backend/controllers/item.js` — `updateItem`, `addItemToCategory`,
  `getItemsByListAndCategory`, `updateBoughtStatus`, `deleteItem`;
* `backend/controllers/list.js` / `category.js` — id parsing of
  `updateListName`, `deleteList`, `deleteCategory`;
* `backend/routes/item.js` — the PUT pipeline `validateRequest(...)` then
  `updateItem`;
* `frontend/src/hooks/useStatistics.js` — `recalcList`, `updateItemInData`.

Modelling conventions, stated once:

* JavaScript numbers are modelled as exact rationals `ℚ`; `NaN` is
  represented by `Option.none` of `Option ℚ` where a coercion can fail.
  Floating-point rounding of `toFixed` is idealised as exact decimal
  rounding (round half up), matching the spec's `round(x, 2)`.
* `Number(string)` is modelled for decimal literals (optional sign, digits,
  optional fraction); hexadecimal and exponent forms do not occur in the
  repository's inputs and are mapped to `NaN`.
* JSON field values are modelled by `JSVal`; a missing object field is
  `JSVal.undef`.  String-typed fields (`name`, `brand`, `comments`) are
  modelled as `Option String` (`none` = absent/undefined); an explicit JSON
  `null` in those positions behaves like `undefined` in every code path the
  claims exercise.
* JS object iteration order for objects keyed by non-negative integer ids
  (`Object.entries` in `computeCategoriesBreakdown`) is ascending key
  order, per the ECMAScript own-property order for array-index keys; and
  `Array.prototype.sort` is stable (ES2019), modelled by `insertionSort`.
-/

/-- A JSON/JS field value as it arrives in a request body.  `undef` stands
for an absent field (JS `undefined`). -/
inductive JSVal where
  | num (q : ℚ)
  | str (s : String)
  | null
  | undef
  | bool (b : Bool)
deriving DecidableEq, Repr

/-- Decimal digit string to natural number (`"2024"` ↦ `2024`). -/
def digitsToNat (cs : List Char) : ℕ :=
  cs.foldl (fun a c => a * 10 + (c.toNat - '0'.toNat)) 0

/-- JS `String.prototype.trim`: strip leading and trailing whitespace.
(Defined over the character list so that it evaluates inside the kernel.) -/
def jsTrim (s : String) : String :=
  ⟨(((s.toList.dropWhile Char.isWhitespace).reverse.dropWhile
      Char.isWhitespace).reverse)⟩

/-- JS `Number(string)` on the decimal fragment of the language: after
trimming, the empty string is `0`; an optional sign followed by digits with
an optional fractional part is its exact decimal value; anything else is
`NaN` (`none`). -/
def jsStringToNumber (s : String) : Option ℚ :=
  let t := jsTrim s
  let signed : Bool → ℚ → ℚ := fun neg q => if neg then -q else q
  if t = "" then some 0
  else
    let (neg, cs) :=
      match t.toList with
      | '-' :: rest => (true, rest)
      | '+' :: rest => (false, rest)
      | cs => (false, cs)
    let intPart := cs.takeWhile (·.isDigit)
    let rest := cs.dropWhile (·.isDigit)
    match rest with
    | [] =>
        if intPart.isEmpty then none
        else some (signed neg (digitsToNat intPart : ℚ))
    | '.' :: fracPart =>
        if fracPart.all (·.isDigit) && !(intPart.isEmpty && fracPart.isEmpty) then
          some (signed neg ((digitsToNat intPart : ℚ) +
            (digitsToNat fracPart : ℚ) / ((10 : ℚ) ^ fracPart.length)))
        else none
    | _ => none

/-- JS `parseInt(s, 10)`: after trimming, an optional sign followed by at
least one leading digit parses as the integer value of the maximal digit
prefix; otherwise `NaN` (`none`). -/
def jsParseInt (s : String) : Option ℤ :=
  let t := jsTrim s
  let core : List Char → Option ℕ := fun cs =>
    let ds := cs.takeWhile (·.isDigit)
    if ds.isEmpty then none else some (digitsToNat ds)
  match t.toList with
  | '-' :: rest => (core rest).map (fun n => -(n : ℤ))
  | '+' :: rest => (core rest).map (fun n => (n : ℤ))
  | cs => (core cs).map (fun n => (n : ℤ))

/-- JS numeric coercion of a field value (`Number(v)`); `none` is `NaN`. -/
def jsToNumber : JSVal → Option ℚ
  | .num q => some q
  | .str s => jsStringToNumber s
  | .null => some 0
  | .undef => none
  | .bool b => some (if b then 1 else 0)

/-- JS `isNaN(v)` (which coerces its argument with `Number` first). -/
def jsIsNaN (v : JSVal) : Bool := (jsToNumber v).isNone

/-- JS truthiness of a field value. -/
def jsTruthy : JSVal → Bool
  | .num q => q ≠ 0
  | .str s => s ≠ ""
  | .null => false
  | .undef => false
  | .bool b => b

/-- The payload seen by the item validators: the five fields the routes
extract from the request body (`routes/item.js`, `routes/list.js`).  The
string-typed fields are `Option String` (`none` = absent). -/
structure ItemPayload where
  name : Option String := none
  quantity : JSVal := .undef
  brand : Option String := none
  unitId : JSVal := .undef
  comments : Option String := none
deriving DecidableEq, Repr

/-- The `errors` object built by the item validators: field name to Hebrew
message, one optional slot per checked field. -/
structure ItemErrors where
  name : Option String := none
  quantity : Option String := none
  brand : Option String := none
  unitId : Option String := none
  comments : Option String := none
deriving DecidableEq, Repr

/-- `Object.keys(errors).length === 0` for an `ItemErrors` object. -/
def ItemErrors.isEmpty (e : ItemErrors) : Bool :=
  e.name.isNone && e.quantity.isNone && e.brand.isNone && e.unitId.isNone &&
    e.comments.isNone

/-- JS `x?.trim() || ""` on an optional string field. -/
def trimOrEmpty (v : Option String) : String := jsTrim (v.getD "")

/-- `validators/item.js` `validateItemAddition`: name required and ≤ 50
chars; quantity rejected when it is `0`, `"0"`, `""`, `null` or `NaN`;
brand optional ≤ 50; unitId required, nonzero; comments optional ≤ 100. -/
def validateItemAddition (item : ItemPayload) : ItemErrors :=
  let name := trimOrEmpty item.name
  let brand := trimOrEmpty item.brand
  let comments := trimOrEmpty item.comments
  { name :=
      if name = "" then some "שדה חובה"
      else if name.length > 50 then some "השדה יכול להכיל לכל היותר 50 תווים"
      else none
    quantity :=
      if item.quantity = .num 0 || item.quantity = .str "0" ||
          item.quantity = .str "" || item.quantity = .null ||
          jsIsNaN item.quantity then
        some "ערך השדה חייב להיות גדול מאפס"
      else none
    brand :=
      if brand ≠ "" && brand.length > 50 then
        some "השדה יכול להכיל לכל היותר 50 תווים"
      else none
    unitId :=
      if !jsTruthy item.unitId || jsToNumber item.unitId = some 0 then
        some "יש לבחור יחידת מידה"
      else none
    comments :=
      if comments ≠ "" && comments.length > 100 then
        some "השדה יכול להכיל לכל היותר 100 תווים"
      else none }

/-- `validators/item.js` `validateItemUpdate`: textually the same rules as
`validateItemAddition` (the two function bodies are identical in the
source). -/
def validateItemUpdate (item : ItemPayload) : ItemErrors :=
  let name := trimOrEmpty item.name
  let brand := trimOrEmpty item.brand
  let comments := trimOrEmpty item.comments
  { name :=
      if name = "" then some "שדה חובה"
      else if name.length > 50 then some "השדה יכול להכיל לכל היותר 50 תווים"
      else none
    quantity :=
      if item.quantity = .num 0 || item.quantity = .str "0" ||
          item.quantity = .str "" || item.quantity = .null ||
          jsIsNaN item.quantity then
        some "ערך השדה חייב להיות גדול מאפס"
      else none
    brand :=
      if brand ≠ "" && brand.length > 50 then
        some "השדה יכול להכיל לכל היותר 50 תווים"
      else none
    unitId :=
      if !jsTruthy item.unitId || jsToNumber item.unitId = some 0 then
        some "יש לבחור יחידת מידה"
      else none
    comments :=
      if comments ≠ "" && comments.length > 100 then
        some "השדה יכול להכיל לכל היותר 100 תווים"
      else none }

/-! ## Statistics service (`services/statisticsService.js`) -/

/-- One row of the category breakdown:
`{ categoryId, categoryName, quantity, percent }`. -/
structure BreakdownRow where
  categoryId : ℕ
  categoryName : String
  quantity : ℕ
  percent : ℚ
deriving DecidableEq, Repr

/-- `Number(x.toFixed(2))` idealised over `ℚ`: round to two decimal places
(round half up). -/
def round2 (x : ℚ) : ℚ := ((round (x * 100) : ℤ) : ℚ) / 100

/-- The `percent` expression of `computeCategoriesBreakdown`:
`totalQuantity > 0 ? Number(((count / totalQuantity) * 100).toFixed(2)) : 0`. -/
def percentOf (count total : ℕ) : ℚ :=
  if 0 < total then round2 ((count : ℚ) / (total : ℚ) * 100) else 0

/-- `categoryMap.get(catId) || 'Unknown'`: the looked-up name, or
`"Unknown"` when the id is absent — or when the stored name is the empty
string, which is falsy in JS. -/
def catName (categoryMap : List (ℕ × String)) (c : ℕ) : String :=
  match categoryMap.lookup c with
  | some n => if n = "" then "Unknown" else n
  | none => "Unknown"

/-- The row built for category `c` by `computeCategoriesBreakdown`, where
`items` is the list of the items' `categoryId`s (the only item field the
source reads). -/
def rowFor (items : List ℕ) (categoryMap : List (ℕ × String)) (c : ℕ) :
    BreakdownRow :=
  { categoryId := c
    categoryName := catName categoryMap c
    quantity := items.count c
    percent := percentOf (items.count c) items.length }

/-- `Object.entries(counts)` enumeration order: the distinct category ids of
`items`, ascending (ECMAScript array-index own-key order). -/
def entriesOrder (items : List ℕ) : List ℕ :=
  items.dedup.insertionSort (· ≤ ·)

/-- The comparator `(a, b) => b.quantity - a.quantity`: row `a` may precede
row `b` when `a.quantity ≥ b.quantity`. -/
def rowGe (a b : BreakdownRow) : Prop := b.quantity ≤ a.quantity

instance : DecidableRel rowGe := fun a b => Nat.decLe b.quantity a.quantity

instance : IsTotal BreakdownRow rowGe :=
  ⟨fun a b => (Nat.le_total b.quantity a.quantity).imp id id⟩

instance : IsTrans BreakdownRow rowGe :=
  ⟨fun _ _ _ h1 h2 => Nat.le_trans h2 h1⟩

/-- `computeCategoriesBreakdown(items, categoryMap)`
(`services/statisticsService.js` lines 51–64): group the items by
`categoryId`, build one row per distinct category with its occurrence count
and rounded percentage of `items.length`, and sort rows by count
descending (stable sort). -/
def computeCategoriesBreakdown (items : List ℕ)
    (categoryMap : List (ℕ × String)) : List BreakdownRow :=
  List.insertionSort rowGe ((entriesOrder items).map (rowFor items categoryMap))

/-! ## Statistics controllers (`controllers/statistic.js`) -/

/-- A `List` row as selected by the statistics queries
(`{ id, name, createdAt }`); `createdAt` is a UTC timestamp in
milliseconds. -/
structure ListRec where
  id : ℕ
  name : String
  createdAt : ℤ
deriving DecidableEq, Repr

/-- An `Item` row as selected by the monthly statistics query
(`select: { listId, categoryId }`). -/
structure MonthItem where
  listId : ℕ
  categoryId : ℕ
deriving DecidableEq, Repr

/-- One per-list entry of a statistics response:
`{ id, name, createdAt, totalQuantity, categories }`. -/
structure ListStats where
  id : ℕ
  name : String
  createdAt : ℤ
  totalQuantity : ℕ
  categories : List BreakdownRow
deriving DecidableEq, Repr

/-- `groupItemsByList` restricted to one list id: the items of `items`
whose `listId` equals `lid`, in order (`itemsGrouped[lid] || []`). -/
def itemsOfList (items : List MonthItem) (lid : ℕ) : List MonthItem :=
  items.filter (fun i => i.listId == lid)

/-- The `lists.map(...)` stage of `getMonthlyStats`
(`controllers/statistic.js` lines 65–69), applied to the lists and items
fetched for the month and to the category-name lookup: every fetched list
appears, with `totalQuantity` the *number* of its item rows and
`categories` its breakdown.  (The database fetches `getListsInRange` /
`getItemsForLists` / `getCategoryMap` are abstracted as the arguments.) -/
def getMonthlyStatsResult (lists : List ListRec) (items : List MonthItem)
    (categoryMap : List (ℕ × String)) : List ListStats :=
  lists.map (fun l =>
    { id := l.id
      name := l.name
      createdAt := l.createdAt
      totalQuantity := (itemsOfList items l.id).length
      categories :=
        computeCategoriesBreakdown ((itemsOfList items l.id).map (·.categoryId))
          categoryMap })

/-- A `Category` table row. -/
structure CategoryRec where
  id : ℕ
  name : String
deriving DecidableEq, Repr

/-- An `Item` table row, carrying the fields the single-list statistics
code can reach (`listId`, `categoryId`, and the item's own `quantity`
column — which the statistics code deliberately ignores). -/
structure DBItem where
  listId : ℕ
  categoryId : ℕ
  quantity : ℚ
deriving DecidableEq, Repr

/-- The database state visible to the statistics endpoints. -/
structure DB where
  lists : List ListRec
  items : List DBItem
  categories : List CategoryRec
deriving Repr

/-- `getCategoryMap(items)`: the `categoryId → name` lookup built from the
`Category` rows whose ids occur among the items. -/
def getCategoryMap (db : DB) (items : List DBItem) : List (ℕ × String) :=
  (db.categories.filter (fun c => (items.map (·.categoryId)).contains c.id)).map
    (fun c => (c.id, c.name))

/-- An HTTP error response `{ error: message }` with its status code, as
produced by the global `errorHandler` middleware
(`statusCode = err.statusCode || 500`). -/
structure HttpError where
  statusCode : ℕ
  message : String
deriving DecidableEq, Repr

/-- The 200 body `{ ...list, totalQuantity: items.length, categories }`
built at `controllers/statistic.js` line 120 for a found list:
`totalQuantity` is the *count* of the list's item rows. -/
def statsForList (db : DB) (listId : ℚ) (l : ListRec) : ListStats :=
  let items := db.items.filter (fun i => (i.listId : ℚ) == listId)
  { id := l.id
    name := l.name
    createdAt := l.createdAt
    totalQuantity := items.length
    categories :=
      computeCategoriesBreakdown (items.map (·.categoryId))
        (getCategoryMap db items) }

/-- The body of `getStatsByList` after the id has parsed to a number:
the `prisma.list.findUnique` / `prisma.item.findMany` stage (see
`getStatsByList` for the `prismaInGlobal` flag). -/
def getStatsByListWithId (prismaInGlobal : Bool) (db : DB) (listId : ℚ) :
    Except HttpError ListStats :=
  if !prismaInGlobal then .error ⟨500, "prisma is not defined"⟩
  else
    match db.lists.find? (fun l => (l.id : ℚ) == listId) with
    | none => .error ⟨404, "List not found"⟩
    | some l => .ok (statsForList db listId l)

/-- `getStatsByList` (`controllers/statistic.js` lines 109–121).

`prismaInGlobal` records whether `globalThis.prisma` is set.  The
controller module imports only `asyncHandler` and the statistics service
(lines 15–16); it never imports `prisma`, so the bare identifier `prisma`
at lines 113/116 resolves only through the global object.  `prisma/client.js`
assigns `globalThis.prisma` exactly when `NODE_ENV !== 'production'`; in
production the reference throws `ReferenceError: prisma is not defined`,
which `asyncHandler` forwards to the error handler as a 500 (the error
carries no `statusCode`). -/
def getStatsByList (prismaInGlobal : Bool) (idStr : String) (db : DB) :
    Except HttpError ListStats :=
  match jsStringToNumber idStr with
  | none => .error ⟨400, "listId must be a number"⟩
  | some listId => getStatsByListWithId prismaInGlobal db listId

/-! ## `parseMonth` (`services/statisticsService.js` lines 16–26) -/

/-- The regular expression `^\d{4}-\d{2}$`: exactly four digits, a dash,
and two digits. -/
def monthPattern : List Char → Bool
  | [a, b, c, d, e, f, g] =>
      a.isDigit && b.isDigit && c.isDigit && d.isDigit && e == '-' &&
        f.isDigit && g.isDigit
  | _ => false

/-- JS `String.prototype.split("-")` over the character list. -/
def splitOnDash : List Char → List (List Char)
  | [] => [[]]
  | c :: rest =>
    if c = '-' then [] :: splitOnDash rest
    else
      match splitOnDash rest with
      | [] => [[c]]
      | g :: gs => (c :: g) :: gs

/-- A UTC date produced by `Date.UTC(year, month, 1)`, represented by its
calendar month index `year * 12 + month` (so that `Date.UTC`'s
normalisation of out-of-range month arguments is ordinary integer
arithmetic) and its day of month, always `1` here. -/
structure UTCDate where
  monthIndex : ℤ
  day : ℕ
deriving DecidableEq, Repr

/-- The half-open UTC interval `{ start, end }` returned by `parseMonth`
(`end` is a Lean keyword, hence `finish`). -/
structure MonthRange where
  start : UTCDate
  finish : UTCDate
deriving DecidableEq, Repr

/-- `parseMonth(monthStr)`: `none` models a missing query parameter.  A
falsy or non-`YYYY-MM` input throws `{ statusCode: 400 }`; otherwise the
string is split on `"-"`, the two parts are read as numbers, and
`Date.UTC(year, monthNumber - 1, 1)` / `Date.UTC(year, monthNumber, 1)`
give the interval.  (`Number` on the all-digit parts guaranteed by the
regex is their decimal value.) -/
def parseMonthStr (s : String) : Except HttpError MonthRange :=
  if !jsTruthy (.str s) || !monthPattern s.toList then
    .error ⟨400, "Month must be in format YYYY-MM"⟩
  else
    let parts := splitOnDash s.toList
    let year : ℤ := digitsToNat (parts.getD 0 [])
    let monthNumber : ℤ := digitsToNat (parts.getD 1 [])
    .ok { start := ⟨year * 12 + (monthNumber - 1), 1⟩
          finish := ⟨year * 12 + monthNumber, 1⟩ }

/-- `parseMonth` on the full argument: a missing query parameter (`none`)
is falsy, hence the same 400 error. -/
def parseMonth : Option String → Except HttpError MonthRange
  | none => .error ⟨400, "Month must be in format YYYY-MM"⟩
  | some s => parseMonthStr s

/-! ## PUT `/api/items/:id` (`routes/item.js` + `controllers/item.js`) -/

/-- A PUT `/api/items/:id` request body.  `none` / `JSVal.undef` mark an
absent field.  These are the six fields `updateItem` recognises; the
route's validator additionally sees the first five. -/
structure BodyPatch where
  name : Option String := none
  quantity : JSVal := .undef
  brand : Option String := none
  unitId : JSVal := .undef
  comments : Option String := none
  bought : Option Bool := none
deriving DecidableEq, Repr

/-- The projection `(req) => ({ name, quantity, brand, unitId, comments })`
the PUT route hands to `validateRequest` (`routes/item.js` lines 30–36);
note `bought` is not validated. -/
def putValidatedData (b : BodyPatch) : ItemPayload :=
  { name := b.name
    quantity := b.quantity
    brand := b.brand
    unitId := b.unitId
    comments := b.comments }

/-- A stored `Item` row, with the six patchable columns (`quantity`
numeric, `unitId` an integer foreign key, per the data model — the Prisma
schema file itself is not among the sources). -/
structure StoredItem where
  name : String
  quantity : ℚ
  brand : Option String
  unitId : ℤ
  comments : Option String
  bought : Bool
deriving DecidableEq, Repr

/-- The number of recognised fields present in the body —
`Object.keys(dataToUpdate).length` in `updateItem`. -/
def BodyPatch.presentCount (b : BodyPatch) : ℕ :=
  (if b.name.isSome then 1 else 0) +
  (if b.quantity ≠ .undef then 1 else 0) +
  (if b.brand.isSome then 1 else 0) +
  (if b.unitId ≠ .undef then 1 else 0) +
  (if b.comments.isSome then 1 else 0) +
  (if b.bought.isSome then 1 else 0)

/-- Whether a present `quantity` body value has a type the numeric
`Item.quantity` column can store.  `updateItem` puts the *raw* body value
into `dataToUpdate` (no `Number(...)` coercion, unlike
`addItemToCategory`), so `prisma.item.update` type-checks it: a number is
accepted, while a present string, boolean or `null` makes the update call
throw a data-validation error.  An absent field is never written and is
trivially storable. -/
def storableQuantity : JSVal → Bool
  | .num _ => true
  | .undef => true
  | _ => false

/-- Whether a present `unitId` body value is storable in the integer
`unitId` foreign-key column: a number with integer value.  Non-numbers —
and fractional numbers, which an integer column rejects — make
`prisma.item.update` throw.  See `storableQuantity`. -/
def storableUnitId : JSVal → Bool
  | .num q => q.den = 1
  | .undef => true
  | _ => false

/-- The write performed by
`prisma.item.update({ where: { id }, data: dataToUpdate })` once the data
has passed Prisma's type validation: overwrite exactly the fields present
in the body.  In the `quantity`/`unitId` arms the wildcard covers the
absent field (`undef`: keep the stored value); for present non-numeric
values it is unreachable, because the controller only performs the write
when `storableQuantity` / `storableUnitId` hold. -/
def applyUpdate (s : StoredItem) (b : BodyPatch) : StoredItem :=
  { name := b.name.getD s.name
    quantity := match b.quantity with | .num q => q | _ => s.quantity
    brand := match b.brand with | some v => some v | none => s.brand
    unitId := match b.unitId with | .num q => q.num | _ => s.unitId
    comments := match b.comments with | some v => some v | none => s.comments
    bought := b.bought.getD s.bought }

/-- The outcome of a PUT `/api/items/:id` request. -/
inductive PutResult where
  /-- 400 from `validateRequest`: `res.status(400).json({ errors })`. -/
  | validationFailed (errors : ItemErrors)
  /-- 400 from the controller (`Invalid item ID` / empty patch). -/
  | clientError (e : HttpError)
  /-- `prisma.item.update` threw a data-validation error (a present field
  whose type the column cannot store); the error carries no `statusCode`,
  so the global error handler answers 500, and nothing is written. -/
  | storageTypeError
  /-- 200 with the updated row. -/
  | updated (item : StoredItem)
deriving DecidableEq, Repr

/-- `updateItem`'s body handling (`controllers/item.js` lines 202–221):
parse the id, reject an empty `dataToUpdate` with 400, then hand
`dataToUpdate` to `prisma.item.update`, which either rejects a wrongly
typed present field (500, nothing stored) or performs the partial
write. -/
def updateItemController (idStr : String) (b : BodyPatch)
    (stored : StoredItem) : PutResult :=
  match jsParseInt idStr with
  | none => .clientError ⟨400, "Invalid item ID"⟩
  | some _ =>
    if b.presentCount = 0 then
      .clientError ⟨400, "No valid fields provided to update"⟩
    else if storableQuantity b.quantity && storableUnitId b.unitId then
      .updated (applyUpdate stored b)
    else .storageTypeError

/-- The full PUT `/api/items/:id` pipeline (`routes/item.js` lines 28–38):
first `validateRequest(validateItemUpdate, ...)` on the projected body,
then the `updateItem` controller. -/
def putItemRoute (idStr : String) (b : BodyPatch) (stored : StoredItem) :
    PutResult :=
  let errors := validateItemUpdate (putValidatedData b)
  if !errors.isEmpty then .validationFailed errors
  else updateItemController idStr b stored

/-! ## Identifier handling across route handlers -/

/-- The first storage (Prisma) call a handler issues, with the values the
handler passes for the numeric identifiers (`none` = `NaN` reached
storage). -/
inductive StorageOp where
  | itemDelete (id : ℤ)
  | itemDeleteManyByList (listId : ℤ)
  | listUpdate (id : ℤ)
  | categoryDelete (id : ℤ)
  | itemUpdateBought (id : ℤ) (bought : Bool)
  | itemFindByListAndCategory (listId categoryId : Option ℚ)
  | itemCreate (listId categoryId unitId : Option ℚ)
deriving DecidableEq, Repr

/-- What a handler does before (or instead of) its first storage call. -/
inductive HandlerAction where
  | respond (status : ℕ) (message : String)
  | storage (op : StorageOp)
deriving DecidableEq, Repr

/-- `deleteItem` (`controllers/item.js` lines 262–268): `parseInt` the id,
400 on `NaN`, else delete. -/
def deleteItemFirstAction (idStr : String) : HandlerAction :=
  match jsParseInt idStr with
  | none => .respond 400 "Invalid item ID"
  | some id => .storage (.itemDelete id)

/-- `deleteList` (`controllers/list.js` lines 96–104): `parseInt` the id,
400 on `NaN`, else first delete the list's items. -/
def deleteListFirstAction (idStr : String) : HandlerAction :=
  match jsParseInt idStr with
  | none => .respond 400 "Invalid list ID"
  | some id => .storage (.itemDeleteManyByList id)

/-- `updateListName` (`controllers/list.js` lines 70–79): `parseInt` the
id, 400 on `NaN`, 400 on falsy name, else update. -/
def updateListNameFirstAction (idStr : String) (name : Option String) :
    HandlerAction :=
  match jsParseInt idStr with
  | none => .respond 400 "Invalid list ID"
  | some id =>
    if (name.getD "") = "" then .respond 400 "Name is required"
    else .storage (.listUpdate id)

/-- `deleteCategory` (`controllers/category.js`): `parseInt` the id, 400 on
`NaN`, else delete. -/
def deleteCategoryFirstAction (idStr : String) : HandlerAction :=
  match jsParseInt idStr with
  | none => .respond 400 "Invalid category ID"
  | some id => .storage (.categoryDelete id)

/-- `updateBoughtStatus` (`controllers/item.js` lines 238–247): `parseInt`
the id, 400 on `NaN`, 400 unless `bought` is a boolean, else update. -/
def updateBoughtStatusFirstAction (idStr : String) (bought : JSVal) :
    HandlerAction :=
  match jsParseInt idStr with
  | none => .respond 400 "Invalid item ID"
  | some id =>
    match bought with
    | .bool b => .storage (.itemUpdateBought id b)
    | _ => .respond 400 "'bought' must be boolean"

/-- `getItemsByListAndCategory` (`controllers/item.js` lines 175–185): no
validation at all — the handler passes `Number(listId)` and
`Number(categoryId)` straight into the `findMany` call, `NaN` included. -/
def getItemsByListAndCategoryFirstAction (listIdStr categoryIdStr : String) :
    HandlerAction :=
  .storage (.itemFindByListAndCategory (jsStringToNumber listIdStr)
    (jsStringToNumber categoryIdStr))

/-- `addItemToCategory` (`controllers/item.js` lines 137–158): the body's
`name`/`quantity`/`unitId` are checked for truthiness (400 if missing), but
the path identifiers are never validated — `Number(listId)` and
`Number(categoryId)` go straight into the `create` call. -/
def addItemToCategoryFirstAction (listIdStr categoryIdStr : String)
    (name : Option String) (quantity unitId : JSVal) : HandlerAction :=
  if !jsTruthy (.str (name.getD "")) || !jsTruthy quantity ||
      !jsTruthy unitId then
    .respond 400 "Missing required fields: name, quantity or unitId"
  else
    .storage (.itemCreate (jsStringToNumber listIdStr)
      (jsStringToNumber categoryIdStr) (jsToNumber unitId))

/-! ## Frontend statistics merge (`frontend/src/hooks/useStatistics.js`) -/

/-- One element of a list's `categories` array in `dataByList`. -/
structure StatCat where
  categoryId : ℕ
  quantity : ℚ
  percent : ℚ
deriving Repr

/-- The per-list slice of `dataByList` the merge logic touches. -/
structure ListData where
  categories : List StatCat
  totalQuantity : ℚ
deriving Repr

/-- `recalcList` (`useStatistics.js` lines 20–32): recompute
`totalQuantity` as the sum of the category quantities and every category's
`percent` from those counts (`c.quantity || 0` is the identity on our
NaN-free number model). -/
def recalcList (d : ListData) : ListData :=
  let totalQuantity := (d.categories.map (·.quantity)).sum
  { categories :=
      d.categories.map (fun c =>
        { c with
          percent :=
            if totalQuantity ≠ 0 then c.quantity / totalQuantity * 100
            else 0 })
    totalQuantity := totalQuantity }

/-- The kind of realtime item event. -/
inductive EventKind where
  | insert
  | update
  | delete
deriving DecidableEq, Repr

/-- What `updateItemInData`'s state updater returns for one list. -/
inductive MergeOutcome where
  /-- `prev[listId]` was absent: `return prev` unchanged. -/
  | keep
  /-- `shouldReload`: `reloadList(listId)` is triggered and `prev` is
  returned unchanged. -/
  | reload
  /-- The recalculated list data replaces `prev[listId]`. -/
  | set (d : ListData)
deriving Repr

/-- The switch of `updateItemInData` (`useStatistics.js` lines 169–204)
for a tracked list: find the event's category among the tracked
rows; on `insert` bump its quantity by one (or reload when untracked); on
`update` reload when untracked, else keep quantities; on `delete`
decrement and drop the row at zero — an untracked `delete` falls through
with the categories unchanged.  Unless reloading, the new data is
`recalcList` of the updated categories. -/
def mergeItemEvent (d : ListData) (categoryId : ℕ) (kind : EventKind) :
    MergeOutcome :=
  match kind, d.categories.findIdx? (fun c => c.categoryId == categoryId) with
    | .insert, some i =>
        .set (recalcList
          { d with
            categories :=
              d.categories.modify (fun c => { c with quantity := c.quantity + 1 })
                i })
    | .insert, none => .reload
    | .update, none => .reload
    | .update, some _ => .set (recalcList d)
    | .delete, some i =>
        let q := max 0 ((d.categories.getD i ⟨0, 0, 0⟩).quantity - 1)
        if 0 < q then
          .set (recalcList
            { d with
              categories :=
                d.categories.modify (fun c => { c with quantity := q }) i })
        else
          .set (recalcList { d with categories := d.categories.eraseIdx i })
    | .delete, none => .set (recalcList d)

/-- `updateItemInData` (`useStatistics.js` lines 163–219) for one list:
when `prev[listId]` is absent the updater returns `prev` unchanged
(`keep`); otherwise it merges the event into that list's data through the
switch (`mergeItemEvent`). -/
def updateItemInData (listData : Option ListData) (categoryId : ℕ)
    (kind : EventKind) : MergeOutcome :=
  match listData with
  | none => .keep
  | some d => mergeItemEvent d categoryId kind

/-! ## Concrete data used by witnesses and counterexamples -/

/-- A one-list database whose list 1 exists and has no items. -/
def dbOneList : DB := ⟨[⟨1, "Groceries", 0⟩], [], []⟩

/-- A stored item used to exercise the PUT pipeline. -/
def itemBefore : StoredItem :=
  { name := "Old name", quantity := 1, brand := some "OldBrand", unitId := 2,
    comments := some "old", bought := false }

/-- A single-field PUT body carrying only `comments`. -/
def bodyOnlyComments : BodyPatch := { comments := some "hello" }

/-- A PUT body with the three validator-required fields, all storable. -/
def bodyNameQtyUnit : BodyPatch :=
  { name := some "Milk", quantity := .num 2, unitId := .num 3 }

/-- A PUT body that passes the validator (`isNaN("2")` is false) but
carries `quantity` as a *string*, which the numeric column rejects. -/
def bodyStrQty : BodyPatch :=
  { name := some "Milk", quantity := .str "2", unitId := .num 3 }

/-- Frontend statistics state tracking only category 1. -/
def dataCat1 : ListData := ⟨[⟨1, 2, 100⟩], 2⟩

/-- Frontend statistics state tracking categories 1 and 2. -/
def dataCat12 : ListData := ⟨[⟨1, 2, 100⟩, ⟨2, 1, 0⟩], 3⟩

/-! ## Theorems -/

/-- C10: `validateItemAddition` and `validateItemUpdate` are extensionally
equal — on every payload the two validators return identical error
mappings, so addition and update enforce exactly the same item rules. -/
theorem validators_extensionally_equal :
    ∀ item : ItemPayload, validateItemAddition item = validateItemUpdate item :=
  fun _ => rfl

/-- C8: concrete evaluation of the quantity rule.  The payload with
`quantity: -1` (a number that is *not* greater than zero) produces **no**
quantity error — contradicting the validator's own documented rule
"quantity: must be > 0" — while the claim's listed inputs `0`, `"0"`,
`""`, `null`, non-numeric all fail and `quantity: 2` with `unitId: 3`
passes cleanly. -/
theorem validateItemAddition_quantity_concrete :
    validateItemAddition
        { name := some "Milk", quantity := .num (-1), unitId := .num 3 } = {} ∧
    ¬ ((0 : ℚ) < -1) ∧
    (validateItemAddition
        { name := some "Milk", quantity := .num 0, unitId := .num 3 }).quantity.isSome = true ∧
    (validateItemAddition
        { name := some "Milk", quantity := .str "0", unitId := .num 3 }).quantity.isSome = true ∧
    (validateItemAddition
        { name := some "Milk", quantity := .str "", unitId := .num 3 }).quantity.isSome = true ∧
    (validateItemAddition
        { name := some "Milk", quantity := .null, unitId := .num 3 }).quantity.isSome = true ∧
    (validateItemAddition
        { name := some "Milk", quantity := .str "abc", unitId := .num 3 }).quantity.isSome = true ∧
    (validateItemAddition
        { name := some "Milk", quantity := .undef, unitId := .num 3 }).quantity.isSome = true ∧
    validateItemAddition
        { name := some "Milk", quantity := .num 2, unitId := .num 3 } = {} := by
  refine ⟨rfl, by decide, rfl, rfl, rfl, rfl, rfl, rfl, rfl⟩

/-- C2: `GET /api/statistics/list/:id` evaluated at concrete inputs.  With
`globalThis.prisma` unset (production: the controller has no `prisma`
import), a numeric id for an *existing* list yields
`500 "prisma is not defined"` — never the documented 404/200; the
non-numeric check still yields 400 because it runs before the broken
reference.  The 404/200 behaviour is reachable only through the
development-mode `globalThis.prisma` leak. -/
theorem getStatsByList_missing_prisma_binding :
    getStatsByList false "1" dbOneList = .error ⟨500, "prisma is not defined"⟩ ∧
    getStatsByList false "abc" dbOneList = .error ⟨400, "listId must be a number"⟩ ∧
    getStatsByList true "1" dbOneList = .ok ⟨1, "Groceries", 0, 0, []⟩ ∧
    getStatsByList true "2" dbOneList = .error ⟨404, "List not found"⟩ :=
  ⟨rfl, rfl, rfl, rfl⟩

/-- C5 counterexample: the items-by-list-and-category route, given the
non-numeric list id `"abc"`, issues its storage call (with `NaN` as the
list id) instead of rejecting the request with 400 before touching
storage. -/
theorem getItems_nonNumeric_reaches_storage :
    getItemsByListAndCategoryFirstAction "abc" "1" =
      .storage (.itemFindByListAndCategory none (jsStringToNumber "1")) ∧
    jsStringToNumber "abc" = none :=
  ⟨rfl, rfl⟩

/-- C5 (amended): every handler addressed by a single `:id` path parameter
(`deleteItem`, `deleteList`, `updateListName`, `deleteCategory`,
`updateBoughtStatus`, `updateItem`, and the single-list statistics
endpoint) parses its identifier and answers 400 on a non-numeric value
before any storage call; but the two `:listId/:categoryId` handlers
(`getItemsByListAndCategory`, `addItemToCategory`) never validate the path
identifiers — they pass the raw `Number(...)` coercions (possibly `NaN`)
straight into their storage calls. -/
theorem id_validation_spec :
    (∀ idStr, jsParseInt idStr = none →
      deleteItemFirstAction idStr = .respond 400 "Invalid item ID" ∧
      deleteListFirstAction idStr = .respond 400 "Invalid list ID" ∧
      deleteCategoryFirstAction idStr = .respond 400 "Invalid category ID" ∧
      (∀ nm, updateListNameFirstAction idStr nm = .respond 400 "Invalid list ID") ∧
      (∀ bv, updateBoughtStatusFirstAction idStr bv = .respond 400 "Invalid item ID") ∧
      (∀ b stored, updateItemController idStr b stored =
        .clientError ⟨400, "Invalid item ID"⟩)) ∧
    (∀ idStr db g, jsStringToNumber idStr = none →
      getStatsByList g idStr db = .error ⟨400, "listId must be a number"⟩) ∧
    (∀ a b, getItemsByListAndCategoryFirstAction a b =
      .storage (.itemFindByListAndCategory (jsStringToNumber a)
        (jsStringToNumber b))) ∧
    (∀ a b nm q u, jsTruthy (.str (nm.getD "")) = true → jsTruthy q = true →
      jsTruthy u = true →
      addItemToCategoryFirstAction a b nm q u =
        .storage (.itemCreate (jsStringToNumber a) (jsStringToNumber b)
          (jsToNumber u))) := by
  refine ⟨fun idStr h => ⟨?_, ?_, ?_, fun nm => ?_, fun bv => ?_, fun b stored => ?_⟩,
    fun idStr db g h => ?_, fun a b => rfl, fun a b nm q u h1 h2 h3 => ?_⟩
  · simp [deleteItemFirstAction, h]
  · simp [deleteListFirstAction, h]
  · simp [deleteCategoryFirstAction, h]
  · simp [updateListNameFirstAction, h]
  · simp [updateBoughtStatusFirstAction, h]
  · simp [updateItemController, h]
  · simp [getStatsByList, h]
  · simp [addItemToCategoryFirstAction, h1, h2, h3]

/-- C5 witness: the amended statement applied at the non-numeric id
`"abc"` and at a well-formed add-item body. -/
theorem id_validation_spec_witness :
    deleteItemFirstAction "abc" = .respond 400 "Invalid item ID" ∧
    getStatsByList true "abc" dbOneList = .error ⟨400, "listId must be a number"⟩ ∧
    addItemToCategoryFirstAction "abc" "1" (some "Milk") (.num 2) (.num 3) =
      .storage (.itemCreate (jsStringToNumber "abc") (jsStringToNumber "1")
        (jsToNumber (.num 3))) :=
  ⟨(id_validation_spec.1 "abc" rfl).1,
   id_validation_spec.2.1 "abc" dbOneList true rfl,
   id_validation_spec.2.2.2 "abc" "1" (some "Milk") (.num 2) (.num 3)
     (by decide) (by decide) (by decide)⟩

/-- C4 counterexample: a PUT whose body carries exactly one recognised
field (`comments`) does **not** succeed — the route's validation
middleware rejects it with 400 (`{ errors }` naming `name`, `quantity`,
`unitId`) before the controller's partial-patch logic can run, so no field
of the stored item is updated. -/
theorem put_onlyComments_rejected :
    putItemRoute "5" bodyOnlyComments itemBefore =
      .validationFailed
        ⟨some "שדה חובה", some "ערך השדה חייב להיות גדול מאפס", none,
          some "יש לבחור יחידת מידה", none⟩ ∧
    ¬ ∃ it, putItemRoute "5" bodyOnlyComments itemBefore = .updated it :=
  ⟨rfl, fun ⟨_, h⟩ => PutResult.noConfusion h⟩

/-- C4 (amended): a PUT `/api/items/:id` body with zero recognised fields
is rejected with 400 (already by the route's validator); a body with only
`comments` is likewise rejected with 400 by the validator, which demands
valid `name`, `quantity` and `unitId` — so a single-field PUT never
succeeds.  A validator-passing non-empty body whose present
`quantity`/`unitId` carry storable (numeric, resp. integral) values is
applied by `updateItem` as a partial patch, updating exactly the fields
present and leaving every absent field of the stored item unchanged;
if a present `quantity` or `unitId` is not storable (e.g. the string
`"2"`, which the validator accepts), `prisma.item.update` throws, the
endpoint answers 500, and nothing is stored. -/
theorem putItem_pipeline_spec :
    (∀ idStr stored, putItemRoute idStr {} stored =
      .validationFailed
        ⟨some "שדה חובה", some "ערך השדה חייב להיות גדול מאפס", none,
          some "יש לבחור יחידת מידה", none⟩) ∧
    (∀ idStr c stored,
      ¬ ∃ it, putItemRoute idStr { comments := some c } stored = .updated it) ∧
    (∀ idStr n b stored, jsParseInt idStr = some n →
      (validateItemUpdate (putValidatedData b)).isEmpty = true →
      b.presentCount ≠ 0 →
      storableQuantity b.quantity = true → storableUnitId b.unitId = true →
      putItemRoute idStr b stored = .updated (applyUpdate stored b)) ∧
    (∀ idStr n b stored, jsParseInt idStr = some n →
      (validateItemUpdate (putValidatedData b)).isEmpty = true →
      b.presentCount ≠ 0 →
      (storableQuantity b.quantity && storableUnitId b.unitId) = false →
      putItemRoute idStr b stored = .storageTypeError) ∧
    (∀ stored b,
      (b.name = none → (applyUpdate stored b).name = stored.name) ∧
      (b.quantity = .undef → (applyUpdate stored b).quantity = stored.quantity) ∧
      (b.brand = none → (applyUpdate stored b).brand = stored.brand) ∧
      (b.unitId = .undef → (applyUpdate stored b).unitId = stored.unitId) ∧
      (b.comments = none → (applyUpdate stored b).comments = stored.comments) ∧
      (b.bought = none → (applyUpdate stored b).bought = stored.bought)) := by
  refine ⟨fun idStr stored => rfl,
    fun idStr c stored ⟨_, h⟩ => PutResult.noConfusion h,
    fun idStr n b stored hid hv hc hsq hsu => ?_,
    fun idStr n b stored hid hv hc hss => ?_,
    fun stored b =>
      ⟨fun h => by simp [applyUpdate, h], fun h => by simp [applyUpdate, h],
       fun h => by simp [applyUpdate, h], fun h => by simp [applyUpdate, h],
       fun h => by simp [applyUpdate, h], fun h => by simp [applyUpdate, h]⟩⟩
  · simp [putItemRoute, updateItemController, hv, hid, hc, hsq, hsu]
  · simp [putItemRoute, updateItemController, hv, hid, hc, hss]

/-- C4 witness: the amended statement applied to the body
`{ name: "Milk", quantity: 2, unitId: 3 }` — the request succeeds and the
absent `brand`, `comments` and `bought` fields keep their stored values —
and to `{ name: "Milk", quantity: "2", unitId: 3 }`, which passes the
validator but makes `prisma.item.update` throw (500, nothing stored). -/
theorem putItem_pipeline_spec_witness :
    putItemRoute "7" bodyNameQtyUnit itemBefore =
      .updated (applyUpdate itemBefore bodyNameQtyUnit) ∧
    (applyUpdate itemBefore bodyNameQtyUnit).brand = itemBefore.brand ∧
    (applyUpdate itemBefore bodyNameQtyUnit).comments = itemBefore.comments ∧
    (applyUpdate itemBefore bodyNameQtyUnit).bought = itemBefore.bought ∧
    putItemRoute "7" bodyStrQty itemBefore = .storageTypeError :=
  ⟨putItem_pipeline_spec.2.2.1 "7" 7 bodyNameQtyUnit itemBefore rfl (by decide)
      (by decide) (by decide) (by decide),
   (putItem_pipeline_spec.2.2.2.2 itemBefore bodyNameQtyUnit).2.2.1 rfl,
   (putItem_pipeline_spec.2.2.2.2 itemBefore bodyNameQtyUnit).2.2.2.2.1 rfl,
   (putItem_pipeline_spec.2.2.2.2 itemBefore bodyNameQtyUnit).2.2.2.2.2 rfl,
   putItem_pipeline_spec.2.2.2.1 "7" 7 bodyStrQty itemBefore rfl (by decide)
      (by decide) (by decide)⟩

/-- C9 counterexample: a `delete` event for category 5, which is not
tracked in the local state, does **not** fall back to a reload — the code
falls through the `idx > -1` guard and re-sets the recalculated (and
unchanged) state. -/
theorem delete_untracked_event_not_reloaded :
    dataCat1.categories.findIdx? (fun c => c.categoryId == 5) = none ∧
    updateItemInData (some dataCat1) 5 .delete = .set (recalcList dataCat1) ∧
    ¬ updateItemInData (some dataCat1) 5 .delete = .reload :=
  ⟨rfl, rfl, fun h => MergeOutcome.noConfusion h⟩

/-- C9 (amended): an `insert` event for a tracked category bumps exactly
that category's quantity by one and re-derives every category's percent
from the updated quantities (`recalcList`); `insert` and `update` events
for an untracked category trigger a full reload of that list's statistics,
leaving the local state unchanged; a `delete` event for an untracked
category does *not* reload — it re-sets the recalculated state with the
category quantities unchanged. -/
theorem updateItemInData_spec :
    (∀ d cid i, d.categories.findIdx? (fun c => c.categoryId == cid) = some i →
      updateItemInData (some d) cid .insert =
        .set (recalcList
          { d with
            categories :=
              d.categories.modify (fun c => { c with quantity := c.quantity + 1 })
                i })) ∧
    (∀ (cs : List StatCat) (i j : ℕ) (hj : j < cs.length),
      ((cs.modify (fun c => { c with quantity := c.quantity + 1 }) i).get
          ⟨j, by simpa using hj⟩).quantity =
        if i = j then (cs.get ⟨j, hj⟩).quantity + 1
        else (cs.get ⟨j, hj⟩).quantity) ∧
    (∀ d, (recalcList d).totalQuantity = (d.categories.map (·.quantity)).sum ∧
      (recalcList d).categories.map (·.quantity) =
        d.categories.map (·.quantity) ∧
      (recalcList d).categories.map (·.categoryId) =
        d.categories.map (·.categoryId) ∧
      (recalcList d).categories.map (·.percent) =
        d.categories.map (fun c =>
          if (d.categories.map (·.quantity)).sum ≠ 0 then
            c.quantity / (d.categories.map (·.quantity)).sum * 100
          else 0)) ∧
    (∀ d cid, d.categories.findIdx? (fun c => c.categoryId == cid) = none →
      updateItemInData (some d) cid .insert = .reload ∧
      updateItemInData (some d) cid .update = .reload ∧
      updateItemInData (some d) cid .delete = .set (recalcList d)) := by
  refine ⟨fun d cid i h => ?_, fun cs i j hj => ?_,
    fun d => ⟨rfl, ?_, ?_, ?_⟩, fun d cid h => ⟨?_, ?_, ?_⟩⟩
  · show mergeItemEvent d cid .insert = _
    unfold mergeItemEvent
    rw [h]
  · rw [List.get_eq_getElem, List.get_eq_getElem, List.getElem_modify]
    by_cases hij : i = j <;> simp [hij]
  · simp [recalcList, List.map_map]
  · simp [recalcList, List.map_map]
  · simp [recalcList, List.map_map]
  all_goals (show mergeItemEvent d cid _ = _; unfold mergeItemEvent; rw [h])

/-- C9 witness: the amended statement at a state tracking categories 1 and
2 — inserting into tracked category 1 bumps its quantity from 2 to 3, and
events for untracked category 9 reload on insert/update. -/
theorem updateItemInData_spec_witness :
    updateItemInData (some dataCat12) 1 .insert =
      .set (recalcList
        { dataCat12 with
          categories :=
            dataCat12.categories.modify
              (fun c => { c with quantity := c.quantity + 1 }) 0 }) ∧
    updateItemInData (some dataCat12) 9 .insert = .reload ∧
    updateItemInData (some dataCat12) 9 .update = .reload ∧
    ((dataCat12.categories.modify
        (fun c => { c with quantity := c.quantity + 1 }) 0).get
      ⟨0, by simpa using (by decide : (0 : ℕ) < dataCat12.categories.length)⟩).quantity =
      (dataCat12.categories.get
        ⟨0, by decide⟩).quantity + 1 :=
  ⟨updateItemInData_spec.1 dataCat12 1 0 rfl,
   (updateItemInData_spec.2.2.2 dataCat12 9 rfl).1,
   (updateItemInData_spec.2.2.2 dataCat12 9 rfl).2.1,
   (updateItemInData_spec.2.1 dataCat12.categories 0 0
      (by decide : (0 : ℕ) < dataCat12.categories.length)).trans (if_pos rfl)⟩

theorem digit_ne_dash {c : Char} (h : c.isDigit = true) : ¬ c = '-' := by
  intro he
  rw [he] at h
  exact absurd h (by decide)

theorem splitOnDash_pattern (a b c d f g : Char) (ha : ¬ a = '-') (hb : ¬ b = '-')
    (hc : ¬ c = '-') (hd : ¬ d = '-') (hf : ¬ f = '-') (hg : ¬ g = '-') :
    splitOnDash [a, b, c, d, '-', f, g] = [[a, b, c, d], [f, g]] := by
  simp [splitOnDash, ha, hb, hc, hd, hf, hg]

theorem parseMonth_ok_of_pattern (s : String) (hp : monthPattern s.toList = true) :
    parseMonth (some s) =
      .ok ⟨⟨(digitsToNat (s.toList.take 4) : ℤ) * 12 +
             ((digitsToNat (s.toList.drop 5) : ℤ) - 1), 1⟩,
           ⟨(digitsToNat (s.toList.take 4) : ℤ) * 12 +
             (digitsToNat (s.toList.drop 5) : ℤ), 1⟩⟩ := by
  have hp0 := hp
  rcases hcs : s.toList with _ | ⟨a, _ | ⟨b, _ | ⟨c, _ | ⟨d, _ | ⟨e, _ | ⟨f, _ | ⟨g, _ | ⟨h8, t⟩⟩⟩⟩⟩⟩⟩⟩ <;>
    rw [hcs] at hp
  all_goals simp [monthPattern, Bool.and_eq_true, beq_iff_eq] at hp
  obtain ⟨⟨⟨⟨⟨⟨hda, hdb⟩, hdc⟩, hdd⟩, hee⟩, hdf⟩, hdg⟩ := hp
  subst hee
  rw [hcs] at hp0
  have hs : ¬ s = "" := by
    intro h0
    rw [h0] at hcs
    exact absurd hcs (by simp)
  show parseMonthStr s = _
  unfold parseMonthStr
  rw [hcs]
  rw [if_neg (by simp [jsTruthy, hs, hp0])]
  rw [splitOnDash_pattern a b c d f g (digit_ne_dash hda) (digit_ne_dash hdb)
    (digit_ne_dash hdc) (digit_ne_dash hdd) (digit_ne_dash hdf) (digit_ne_dash hdg)]
  simp

theorem parseMonth_error_iff (inp : Option String) :
    (∃ e, parseMonth inp = .error e ∧ e.statusCode = 400) ↔
      (inp = none ∨ ∃ s, inp = some s ∧ monthPattern s.toList = false) := by
  cases inp with
  | none =>
      exact ⟨fun _ => Or.inl rfl,
        fun _ => ⟨⟨400, "Month must be in format YYYY-MM"⟩, rfl, rfl⟩⟩
  | some s =>
      constructor
      · rintro ⟨e, he, h400⟩
        by_cases hp : monthPattern s.toList = true
        · rw [parseMonth_ok_of_pattern s hp] at he
          exact Except.noConfusion he
        · exact Or.inr ⟨s, rfl, by simpa using hp⟩
      · rintro (h | ⟨s', hs', hp⟩)
        · exact absurd h (by simp)
        · cases Option.some.inj hs'
          have hp2 : monthPattern s.data = false := hp
          exact ⟨⟨400, "Month must be in format YYYY-MM"⟩,
            by show parseMonthStr s = _; simp [parseMonthStr, hp, hp2], rfl⟩

/-- C3: `parseMonth` signals a `statusCode 400` error exactly when its
input is missing or fails the `YYYY-MM` pattern; on every matching input
it returns the half-open UTC interval whose start is the first day of the
month numbered by the `MM` digits in the `YYYY` year (under `Date.UTC`
month-index normalisation) and whose end is the first day of the next
calendar month — exactly one calendar month later, independent of month
length. -/
theorem parseMonth_spec :
    (∀ inp, (∃ e, parseMonth inp = .error e ∧ e.statusCode = 400) ↔
      (inp = none ∨ ∃ s, inp = some s ∧ monthPattern s.toList = false)) ∧
    (∀ s, monthPattern s.toList = true →
      parseMonth (some s) =
        .ok ⟨⟨(digitsToNat (s.toList.take 4) : ℤ) * 12 +
               ((digitsToNat (s.toList.drop 5) : ℤ) - 1), 1⟩,
             ⟨(digitsToNat (s.toList.take 4) : ℤ) * 12 +
               (digitsToNat (s.toList.drop 5) : ℤ), 1⟩⟩) ∧
    (∀ s rng, parseMonth (some s) = .ok rng →
      rng.finish.monthIndex = rng.start.monthIndex + 1 ∧
      rng.start.day = 1 ∧ rng.finish.day = 1) := by
  refine ⟨parseMonth_error_iff, parseMonth_ok_of_pattern, fun s rng h => ?_⟩
  by_cases hp : monthPattern s.toList = true
  · rw [parseMonth_ok_of_pattern s hp] at h
    injection h with h2
    rw [← h2]
    exact ⟨by ring, rfl, rfl⟩
  · obtain ⟨e, he, -⟩ :=
      (parseMonth_error_iff (some s)).mpr (Or.inr ⟨s, rfl, by simpa using hp⟩)
    rw [he] at h
    exact Except.noConfusion h

/-- C3 witness: the specification applied at the valid month `"2024-05"`
(June bound: interval start month-index `2024*12+4`, end `2024*12+5`), at
the malformed `"2024/05"`, and at a missing parameter. -/
theorem parseMonth_spec_witness :
    parseMonth (some "2024-05") = .ok ⟨⟨24292, 1⟩, ⟨24293, 1⟩⟩ ∧
    (∃ e, parseMonth (some "2024/05") = .error e ∧ e.statusCode = 400) ∧
    (∃ e, parseMonth none = .error e ∧ e.statusCode = 400) :=
  ⟨(parseMonth_spec.2.1 "2024-05" (by decide)).trans
      (congrArg Except.ok (by decide)),
   (parseMonth_spec.1 (some "2024/05")).mpr (Or.inr ⟨_, rfl, by decide⟩),
   (parseMonth_spec.1 none).mpr (Or.inl rfl)⟩

/-- A list record used by the zero-item monthly-stats witness. -/
def listRec1 : ListRec := ⟨1, "Groceries", 0⟩

/-- C7: an empty item set yields an empty breakdown (the guarded percent
expression returns `0` instead of dividing when the total is `0`), and the
monthly endpoint emits one entry per fetched list — a list with zero items
still appears, with `totalQuantity = 0` and an empty `categories` array. -/
theorem empty_items_stats_safe :
    (∀ m, computeCategoriesBreakdown [] m = []) ∧
    (∀ c, percentOf c 0 = 0) ∧
    (∀ lists items m, (getMonthlyStatsResult lists items m).length = lists.length) ∧
    (∀ (lists : List ListRec) (items : List MonthItem) m l, l ∈ lists →
      itemsOfList items l.id = [] →
      ({ id := l.id, name := l.name, createdAt := l.createdAt,
         totalQuantity := 0, categories := [] } : ListStats) ∈
        getMonthlyStatsResult lists items m) := by
  refine ⟨fun m => rfl, fun c => rfl, fun lists items m => by
    simp [getMonthlyStatsResult], fun lists items m l hl h => ?_⟩
  refine List.mem_map.mpr ⟨l, hl, ?_⟩
  simp [h, computeCategoriesBreakdown, entriesOrder]

/-- C7 witness: a month with one list and one item row belonging to a
different list — the list still appears with `totalQuantity 0` and no
categories. -/
theorem empty_items_stats_safe_witness :
    computeCategoriesBreakdown [] [(1, "Dairy")] = [] ∧
    ({ id := 1, name := "Groceries", createdAt := 0,
       totalQuantity := 0, categories := [] } : ListStats) ∈
      getMonthlyStatsResult [listRec1] [⟨2, 7⟩] [] :=
  ⟨empty_items_stats_safe.1 [(1, "Dairy")],
   empty_items_stats_safe.2.2.2 [listRec1] [⟨2, 7⟩] [] listRec1 (by decide) rfl⟩

theorem breakdown_perm_rows (items : List ℕ) (m : List (ℕ × String)) :
    (computeCategoriesBreakdown items m).Perm
      ((entriesOrder items).map (rowFor items m)) :=
  List.perm_insertionSort _ _

theorem entriesOrder_perm (items : List ℕ) :
    (entriesOrder items).Perm items.dedup :=
  List.perm_insertionSort _ _

theorem mem_breakdown {items : List ℕ} {m : List (ℕ × String)}
    {r : BreakdownRow} (h : r ∈ computeCategoriesBreakdown items m) :
    ∃ c, c ∈ items.dedup ∧ r = rowFor items m c := by
  have h1 := (breakdown_perm_rows items m).mem_iff.mp h
  obtain ⟨c, hc, rfl⟩ := List.mem_map.mp h1
  exact ⟨c, (entriesOrder_perm items).mem_iff.mp hc, rfl⟩

theorem breakdown_ids_perm (items : List ℕ) (m : List (ℕ × String)) :
    ((computeCategoriesBreakdown items m).map (·.categoryId)).Perm
      items.dedup := by
  have h1 := (breakdown_perm_rows items m).map (·.categoryId)
  rw [List.map_map] at h1
  have h2 : List.map ((fun r : BreakdownRow => r.categoryId) ∘ rowFor items m)
      (entriesOrder items) = entriesOrder items :=
    (List.map_congr_left (fun a _ => rfl)).trans (List.map_id _)
  rw [h2] at h1
  exact h1.trans (entriesOrder_perm items)

/-- C1 counterexample: `categoryMap.get(id) || 'Unknown'` also replaces a
*present but empty* category name by `"Unknown"`, because the empty string
is falsy — so the row's `categoryName` is not always "the lookup's value
when the id is present": for items `[1]` and lookup `{1 ↦ ""}` the code
yields `"Unknown"` while the claim demands `""`. -/
theorem breakdown_categoryName_not_lookup :
    ¬ (∀ (items : List ℕ) (m : List (ℕ × String)),
        (computeCategoriesBreakdown items m).map (·.categoryName) =
          (computeCategoriesBreakdown items m).map
            (fun r => (m.lookup r.categoryId).getD "Unknown")) := by
  intro hclaim
  exact absurd (hclaim [1] [(1, "")]) (by decide)

/-- C1 (amended): the breakdown has exactly one row per distinct
`categoryId` of the input (row ids are a permutation of the deduplicated
input); each row's `quantity` is the number of occurrences of its id, its
`percent` is `round((count / totalItems) * 100, 2)`, and its
`categoryName` is the lookup's value — or the literal `"Unknown"` when the
id is absent from the lookup *or its stored name is the empty string*;
rows are sorted by quantity descending; and both the monthly endpoint and
the single-list endpoint's 200 body define a list's `totalQuantity` as the
count of its item rows, not a sum of quantity fields. -/
theorem computeCategoriesBreakdown_spec :
    (∀ (items : List ℕ) (m : List (ℕ × String)),
      ((computeCategoriesBreakdown items m).map (·.categoryId)).Perm
        items.dedup) ∧
    (∀ (items : List ℕ) (m : List (ℕ × String)),
      (computeCategoriesBreakdown items m).map (·.quantity) =
        ((computeCategoriesBreakdown items m).map (·.categoryId)).map
          (fun c => items.count c)) ∧
    (∀ (items : List ℕ) (m : List (ℕ × String)),
      (computeCategoriesBreakdown items m).map (·.percent) =
        ((computeCategoriesBreakdown items m).map (·.categoryId)).map
          (fun c => round2 ((items.count c : ℚ) / (items.length : ℚ) * 100))) ∧
    (∀ (items : List ℕ) (m : List (ℕ × String)),
      (computeCategoriesBreakdown items m).map (·.categoryName) =
        ((computeCategoriesBreakdown items m).map (·.categoryId)).map
          (fun c =>
            match m.lookup c with
            | some n => if n = "" then "Unknown" else n
            | none => "Unknown")) ∧
    (∀ (items : List ℕ) (m : List (ℕ × String)),
      List.Sorted (fun a b : BreakdownRow => b.quantity ≤ a.quantity)
        (computeCategoriesBreakdown items m)) ∧
    (∀ lists items m,
      (getMonthlyStatsResult lists items m).map (·.totalQuantity) =
        lists.map (fun l => (itemsOfList items l.id).length)) ∧
    (∀ g idStr db st, getStatsByList g idStr db = .ok st →
      ∃ q, jsStringToNumber idStr = some q ∧
        st.totalQuantity =
          (db.items.filter (fun i => (i.listId : ℚ) == q)).length) := by
  refine ⟨breakdown_ids_perm, fun items m => ?_, fun items m => ?_,
    fun items m => ?_, fun items m => ?_, fun lists items m => by
      simp [getMonthlyStatsResult], fun g idStr db st h => ?_⟩
  · rw [List.map_map]
    refine List.map_congr_left (fun r hr => ?_)
    obtain ⟨c, hc, rfl⟩ := mem_breakdown hr
    rfl
  · rw [List.map_map]
    refine List.map_congr_left (fun r hr => ?_)
    obtain ⟨c, hc, rfl⟩ := mem_breakdown hr
    show percentOf (items.count c) items.length = _
    unfold percentOf
    rw [if_pos (List.length_pos.mpr (List.ne_nil_of_mem (List.mem_dedup.mp hc)))]
    rfl
  · rw [List.map_map]
    refine List.map_congr_left (fun r hr => ?_)
    obtain ⟨c, hc, rfl⟩ := mem_breakdown hr
    rfl
  · exact (List.sorted_insertionSort rowGe _).imp (fun h => h)
  · unfold getStatsByList at h
    cases hq : jsStringToNumber idStr with
    | none => rw [hq] at h; exact Except.noConfusion h
    | some q =>
        rw [hq] at h
        refine ⟨q, rfl, ?_⟩
        unfold getStatsByListWithId at h
        cases g with
        | false => exact Except.noConfusion h
        | true =>
            replace h :
                (match db.lists.find? (fun l => (l.id : ℚ) == q) with
                  | none => (.error ⟨404, "List not found"⟩ :
                      Except HttpError ListStats)
                  | some l => .ok (statsForList db q l)) = .ok st := h
            cases hf : db.lists.find? (fun l => (l.id : ℚ) == q) with
            | none => rw [hf] at h; exact Except.noConfusion h
            | some l =>
                rw [hf] at h
                injection h with h2
                rw [← h2]
                rfl

/-- C1 witness: the single-list clause applied to the one-list database —
the 200 body's `totalQuantity` is the count of list 1's item rows (zero
here). -/
theorem computeCategoriesBreakdown_spec_witness :
    ∃ q, jsStringToNumber "1" = some q ∧
      (⟨1, "Groceries", 0, 0, []⟩ : ListStats).totalQuantity =
        (dbOneList.items.filter (fun i => (i.listId : ℚ) == q)).length :=
  computeCategoriesBreakdown_spec.2.2.2.2.2.2 true "1" dbOneList
    ⟨1, "Groceries", 0, 0, []⟩ rfl

theorem round2_abs_le (x : ℚ) : |round2 x - x| ≤ 1 / 200 := by
  unfold round2
  have h := abs_sub_round (x * 100)
  rw [abs_sub_comm] at h
  have h2 : ((round (x * 100) : ℤ) : ℚ) / 100 - x =
      (((round (x * 100) : ℤ) : ℚ) - x * 100) / 100 := by ring
  rw [h2, abs_div, show |(100 : ℚ)| = 100 from by norm_num]
  exact le_trans ((div_le_div_iff_of_pos_right (by norm_num)).mpr h)
    (by norm_num)

theorem sum_map_round2_abs_le (l : List ℚ) :
    |(l.map round2).sum - l.sum| ≤ (l.length : ℚ) * (1 / 200) := by
  induction l with
  | nil => simp
  | cons x xs ih =>
      simp only [List.map_cons, List.sum_cons, List.length_cons]
      have key : round2 x + (xs.map round2).sum - (x + xs.sum) =
          (round2 x - x) + ((xs.map round2).sum - xs.sum) := by ring
      rw [key]
      calc |(round2 x - x) + ((xs.map round2).sum - xs.sum)|
          ≤ |round2 x - x| + |(xs.map round2).sum - xs.sum| := abs_add _ _
        _ ≤ 1 / 200 + (xs.length : ℚ) * (1 / 200) :=
            add_le_add (round2_abs_le x) ih
        _ = ((xs.length + 1 : ℕ) : ℚ) * (1 / 200) := by push_cast; ring

theorem sum_exact_percents (items : List ℕ) (h : items ≠ []) :
    ((entriesOrder items).map
      (fun c => (items.count c : ℚ) / (items.length : ℚ) * 100)).sum = 100 := by
  have hlen : ((items.length : ℚ)) ≠ 0 := by
    exact_mod_cast Nat.pos_iff_ne_zero.mp (List.length_pos.mpr h)
  rw [((entriesOrder_perm items).map
    (fun c => (items.count c : ℚ) / (items.length : ℚ) * 100)).sum_eq]
  rw [List.map_congr_left
    (fun c _ => by
      show (items.count c : ℚ) / (items.length : ℚ) * 100 =
        (items.count c : ℚ) * (100 / (items.length : ℚ))
      ring)]
  rw [List.sum_map_mul_right]
  rw [show (fun c => (items.count c : ℚ)) =
    (Nat.cast ∘ fun c => List.count c items) from rfl]
  rw [← List.map_map, ← Nat.cast_list_sum, List.sum_map_count_dedup_eq_length]
  field_simp

/-- C6: over a non-empty item set the rounded percentages sum to 100
within the claimed tolerance — each of the `k` distinct categories
contributes a rounding error of at most `0.005`, so the total deviation is
at most `k * 0.005 ≤ k * 0.02`. -/
theorem breakdown_percents_sum_near_100 (items : List ℕ)
    (m : List (ℕ × String)) (h : items ≠ []) :
    |((computeCategoriesBreakdown items m).map (·.percent)).sum - 100| ≤
      (items.dedup.length : ℚ) * (2 / 100) := by
  have hlen : 0 < items.length := List.length_pos.mpr h
  have hmap : ((computeCategoriesBreakdown items m).map (·.percent)).sum =
      (((entriesOrder items).map
        (fun c => (items.count c : ℚ) / (items.length : ℚ) * 100)).map
          round2).sum := by
    rw [((breakdown_perm_rows items m).map (·.percent)).sum_eq]
    rw [List.map_map, List.map_map]
    refine congrArg List.sum (List.map_congr_left (fun c hc => ?_))
    show percentOf (items.count c) items.length = _
    unfold percentOf
    rw [if_pos hlen]
    rfl
  rw [hmap]
  have h2 := sum_map_round2_abs_le ((entriesOrder items).map
    (fun c => (items.count c : ℚ) / (items.length : ℚ) * 100))
  rw [sum_exact_percents items h] at h2
  rw [List.length_map, (entriesOrder_perm items).length_eq] at h2
  refine le_trans h2 ?_
  refine mul_le_mul_of_nonneg_left (by norm_num) ?_
  exact_mod_cast Nat.zero_le _

/-- C6 witness: the bound applied at three items spread over two
categories. -/
theorem breakdown_percents_sum_near_100_witness :
    |((computeCategoriesBreakdown [1, 1, 2] [(1, "Dairy")]).map
      (·.percent)).sum - 100| ≤
      (([1, 1, 2] : List ℕ).dedup.length : ℚ) * (2 / 100) :=
  breakdown_percents_sum_near_100 [1, 1, 2] [(1, "Dairy")] (by decide)
